import Mathlib

/-!
Shallow embedding of `src/rust_watchdog_alerts.py` (the alert-dispatch engine of
rust-linuxgsm-watchdog) and proofs about the claims of its specification.

Modelling conventions:
* Python strings are Lean `String`s; where character slicing matters
  (`_split_telegram`) we work on `List Char`, matching Python's per-code-point
  slicing.
* Python `float` timestamps (`time.time()`) are modelled as `ℚ`; the claims
  only concern ordering and subtraction of times.
* Python dictionaries with string keys are modelled as association lists
  (`List (String × _)`) or, for the suppression-state mappings whose reads
  coerce a missing entry to `0` (`... .get(k, 0) or 0`), as total functions
  with default `0`.
* `hashlib.sha1` is modelled as an abstract pure content-hash parameter
  `hash : String → String`; no claim depends on the SHA-1 function itself,
  only on the dedupe key's shape `event ++ ":" ++ hash rendered`.
* Fallible Python code is `Except PyErr _`; a constructor of `PyErr` names the
  Python exception class raised.
-/

namespace RWA

/-- The Python exception classes the embedded code can raise. -/
inductive PyErr where
  | typeError
  | valueError
  | attributeError
  | keyError
deriving DecidableEq

/-- `TELEGRAM_LIMIT = 4096` (rust_watchdog_alerts.py line 14). -/
def TELEGRAM_LIMIT : Nat := 4096

/-- `_split_telegram` (lines 22-25): a message of length at most
`TELEGRAM_LIMIT` is returned as a single chunk (including the empty string);
a longer one is cut into successive slices of `TELEGRAM_LIMIT` characters,
mirroring `[msg[i:i + TELEGRAM_LIMIT] for i in range(0, len(msg), TELEGRAM_LIMIT)]`. -/
def split_telegram (msg : List Char) : List (List Char) :=
  if _h : msg.length ≤ TELEGRAM_LIMIT then [msg]
  else msg.take TELEGRAM_LIMIT :: split_telegram (msg.drop TELEGRAM_LIMIT)
termination_by msg.length
decreasing_by
  simp only [List.length_drop]
  simp only [not_le, TELEGRAM_LIMIT] at *
  omega

/-- A Python scalar value, as can appear among an alert's extra fields. -/
inductive PyVal where
  | vstr (s : String)
  | vint (n : Int)
  | vbool (b : Bool)
  | vnone
deriving DecidableEq

/-- Python truthiness of a scalar. -/
def py_truthy : PyVal → Bool
  | .vstr s => s ≠ ""
  | .vint n => n ≠ 0
  | .vbool b => b
  | .vnone => false

/-- Python `str()` of a scalar (as interpolated by the f-string `f"{k}={safe[k]}"`). -/
def py_str : PyVal → String
  | .vstr s => s
  | .vint n => toString n
  | .vbool true => "True"
  | .vbool false => "False"
  | .vnone => "None"

/-- The `Alert` dataclass (lines 27-34). `fields` is an ordered mapping
(Python `dict`); alerts built by `emit(**fields)` have pairwise distinct keys. -/
structure Alert where
  event : String
  level : String
  title : String
  text : String
  fields : List (String × PyVal)
  ts : ℚ
deriving DecidableEq

/-- First-match association-list lookup: `d[k]` / `d.get(k)` on a dict
modelled as a list of key/value pairs with distinct keys. -/
def assoc_get {β : Type} (l : List (String × β)) (k : String) : Option β :=
  match l with
  | [] => none
  | (k', v) :: t => if k' = k then some v else assoc_get t k

/-- Is `needle` a contiguous substring of `hay` (Python `needle in hay`)? -/
def is_sub (needle : List Char) : List Char → Bool
  | [] => needle.isEmpty
  | c :: t => needle.isPrefixOf (c :: t) || is_sub needle t

/-- Python `needle in hay` on strings. -/
def str_contains (hay needle : String) : Bool :=
  is_sub needle.toList hay.toList

/-- Python `s.lower()` (ASCII case-folding suffices for the redaction policy). -/
def py_lower (s : String) : String := String.mk (s.toList.map Char.toLower)

/-- The redaction predicate of `_render` (line 244):
`"password" in k.lower() or "token" in k.lower()`. -/
def redacted_key (k : String) : Bool :=
  str_contains (py_lower k) "password" || str_contains (py_lower k) "token"

/-- The `safe` dict of `_render` (lines 240-246): fields whose value is not
`None` and whose key is not redacted, in original order. -/
def safe_fields (fields : List (String × PyVal)) : List (String × PyVal) :=
  fields.filter fun kv =>
    (match kv.2 with | .vnone => false | _ => true) && !redacted_key kv.1

/-- `"\n".join(lines)` (and, with the separator `" "`, `" ".join(...)`). -/
def py_join (sep : String) : List String → String
  | [] => ""
  | [s] => s
  | s :: rest => s ++ sep ++ py_join sep rest

/-- The optional trailing fields line of `_render` (lines 247-248): absent when
no field survives redaction, otherwise
`"fields: " + " ".join(f"{k}={safe[k]}" for k in sorted(safe.keys()))`. -/
def fields_line (fields : List (String × PyVal)) : Option String :=
  let safe := safe_fields fields
  if safe.isEmpty then none
  else some ("fields: " ++ py_join " "
    ((List.insertionSort (· ≤ ·) (safe.map Prod.fst)).map
      fun k => k ++ "=" ++ py_str ((assoc_get safe k).getD PyVal.vnone)))

/-- The bracketed identity segment of the header line (line 236):
`'[' + identity + ']' if identity else ''`. Python raises `TypeError` when
`identity` is truthy but not a string (`'[' + identity` concatenates `str`
with a non-`str`). -/
def identity_segment : PyVal → Except PyErr String
  | .vstr s => .ok (if s = "" then "" else "[" ++ s ++ "]")
  | v => if py_truthy v then .error .typeError else .ok ""

/-- `_render` (lines 233-249), split as the list `lines` the source builds
before `"\n".join(lines)`. `host` stands for `os.uname().nodename`. -/
def render_lines (include_host include_identity : Bool) (host : String) (a : Alert) :
    Except PyErr (List String) := do
  let hostS := if include_host then host else ""
  let identity := if include_identity
    then (assoc_get a.fields "identity").getD (.vstr "") else .vstr ""
  let iseg ← identity_segment identity
  let head := "[RustWatchdog]" ++ iseg
      ++ (if hostS = "" then "" else "[" ++ hostS ++ "]")
      ++ " " ++ a.level ++ ": " ++ a.title
  match fields_line a.fields with
  | none => pure [head, a.text]
  | some fl => pure [head, a.text, fl]

/-- `_render` (lines 233-249): the rendered message, or the Python exception
it raises. -/
def render (include_host include_identity : Bool) (host : String) (a : Alert) :
    Except PyErr String :=
  (render_lines include_host include_identity host a).map (py_join "\n")

/-- The suppression state `self._state` (line 129). Each mapping is modelled as
a total function with default `0`, matching how the source reads it:
`float(self._state.get("last_event", {}).get(a.event, 0) or 0)` coerces a
missing entry to `0`, and `int(... .get(a.event, 0) or 0)` likewise. -/
structure SuppState where
  last_event : String → ℚ
  last_key : String → ℚ
  suppressed : String → Int

/-- The initial state `{"last_event": {}, "last_key": {}, "suppressed": {}}`. -/
def empty_state : SuppState := ⟨fun _ => 0, fun _ => 0, fun _ => 0⟩

/-- The alert-relevant configuration an `AlertManager` keeps after `__init__`.
`cooldowns e = some v` stands for the cooldown table holding an
`int`-coercible value `v` for event `e` (an absent or non-coercible entry
behaves as the default, lines 224-231). -/
structure AlertCfg where
  cooldown_default : Int
  cooldowns : String → Option Int
  dedupe_seconds : Int
  include_host : Bool
  include_identity : Bool

/-- `_cooldown_for` (lines 224-231): the per-event override, else the default. -/
def cooldown_for (cfg : AlertCfg) (event : String) : Int :=
  match cfg.cooldowns event with
  | none => cfg.cooldown_default
  | some v => v

/-- The dedupe key `f"{a.event}:{_sha1(rendered)}"` (line 253), over the
abstract content hash. -/
def dedupe_key (hash : String → String) (a : Alert) (rendered : String) : String :=
  a.event ++ ":" ++ hash rendered

/-- `self._state["suppressed"][a.event] = int(... or 0) + 1` (lines 261, 265). -/
def bump_suppressed (st : SuppState) (event : String) : SuppState :=
  { st with suppressed := Function.update st.suppressed event (st.suppressed event + 1) }

/-- `_should_send` (lines 251-269): `true` = allow, `false` = suppress, paired
with the state after the counter mutation the decision performs under lock.
`now` is the `_now()` read at line 252. -/
def should_send (cfg : AlertCfg) (hash : String → String) (now : ℚ) (st : SuppState)
    (a : Alert) (rendered : String) : Bool × SuppState :=
  let key := dedupe_key hash a rendered
  let last_evt := st.last_event a.event
  let last_k := st.last_key key
  let cd := cooldown_for cfg a.event
  if now - last_evt < (cd : ℚ) then (false, bump_suppressed st a.event)
  else if now - last_k < (cfg.dedupe_seconds : ℚ) then (false, bump_suppressed st a.event)
  else (true, st)

/-- `_mark_sent` (lines 271-280): stamp both timestamp maps with the fresh
`_now()` read and reset the suppression counter. The source resets the counter
only when the event already has an entry; over the default-`0` reading of the
map this is observationally the same as updating it to `0`. -/
def mark_sent (hash : String → String) (now : ℚ) (st : SuppState)
    (a : Alert) (rendered : String) : SuppState :=
  { last_event := Function.update st.last_event a.event now
    last_key := Function.update st.last_key (dedupe_key hash a rendered) now
    suppressed := Function.update st.suppressed a.event 0 }

/-- What one backend's `send` call does when the worker invokes it
(lines 294-299): return a boolean, or raise (caught by the worker's
`except Exception: pass`). -/
inductive SendOutcome where
  | ret (b : Bool)
  | exc
deriving DecidableEq

/-- The fan-out loop of `_run` (lines 293-299): one entry of `outs` per
configured backend, in order; returns `ok_any` and the number of backend
`send` invocations made (every backend is invoked, whatever the outcomes). -/
def fan_out : List SendOutcome → Bool × Nat
  | [] => (false, 0)
  | o :: rest =>
    let ok := match o with | .ret true => true | _ => false
    let r := fan_out rest
    (ok || r.1, r.2 + 1)

/-- The allowed-alert tail of `_run` (lines 293-302): fan out, and on any
success `_mark_sent` (which ends by `_save_state`, line 280). The second
component is the full state snapshot handed to `_save_state`
(`none` = `_save_state` not called). -/
def deliver_and_mark (hash : String → String) (now : ℚ) (st : SuppState)
    (a : Alert) (rendered : String) (outs : List SendOutcome) :
    SuppState × Option SuppState :=
  if (fan_out outs).1 then
    let st' := mark_sent hash now st a rendered
    (st', some st')
  else (st, none)

/-- `level in ("ERROR", "CRITICAL")` (line 221). -/
def high_severity (level : String) : Bool :=
  level = "ERROR" || level = "CRITICAL"

/-- `queue.Queue(maxsize=max_queue)` is full exactly when
`0 < maxsize <= qsize()`; a non-positive `maxsize` means an unbounded queue. -/
def queue_full (max_queue : Int) (q : List Alert) : Bool :=
  0 < max_queue && max_queue ≤ (q.length : Int)

/-- The warning `emit` logs when the queue is full (line 222). -/
def queue_full_warning (a : Alert) : String × String :=
  ("WARN", "ALERTS: queue full; dropped alert event=" ++ a.event ++ " level=" ++ a.level)

/-- `emit` (lines 206-222): no-op when disabled; otherwise `put_nowait`, and on
`queue.Full` drop the new alert, logging a warning only for
`ERROR`/`CRITICAL`. Returns the queue afterwards and the log line handed to
the logging callback, if any. `emit` is total: `queue.Full` is caught and
`_log` swallows every exception of the callback (lines 137-142). -/
def emit (enabled : Bool) (max_queue : Int) (q : List Alert) (a : Alert) :
    List Alert × Option (String × String) :=
  if !enabled then (q, none)
  else if queue_full max_queue q then
    (q, if high_severity a.level then some (queue_full_warning a) else none)
  else (q ++ [a], none)

/-- Outcome of one `urlopen` transport call, at the delivery-capability
boundary: success, or one of the failures the channel catches
(`HTTPError`, `URLError`, `TimeoutError`, `OSError`, lines 76 and 95). -/
inductive TransportResult where
  | ok
  | err
deriving DecidableEq

/-- `TelegramBackend.send` (lines 58-78): for every configured chat id, every
chunk of the rendered text is sent as one transport call; a failure flips
`ok_all` to `False` but the loops continue. `transport` maps the call's
sequence number to its outcome; the result pairs `ok_all` with the number of
transport calls made. -/
def telegram_send (transport : Nat → TransportResult) (chat_ids : List Int)
    (rendered : List Char) : Bool × Nat :=
  let chunks := split_telegram rendered
  chat_ids.foldl (fun acc _chat =>
    chunks.foldl (fun acc _chunk =>
      match transport acc.2 with
      | .ok => (acc.1, acc.2 + 1)
      | .err => (false, acc.2 + 1)) acc) (true, 0)

/-- `DiscordWebhookBackend.send` (lines 87-96): a single transport call;
`True` on success, `False` on any caught transport failure. -/
def discord_send (transport : TransportResult) : Bool :=
  match transport with
  | .ok => true
  | .err => false

/-- A JSON-like Python value, as the configuration dictionary holds. -/
inductive JVal where
  | jnull
  | jbool (b : Bool)
  | jint (n : Int)
  | jstr (s : String)
  | jlist (xs : List JVal)
  | jobj (kvs : List (String × JVal))

/-- Python truthiness of a configuration value. -/
def jtruthy : JVal → Bool
  | .jnull => false
  | .jbool b => b
  | .jint n => n ≠ 0
  | .jstr s => s ≠ ""
  | .jlist xs => !xs.isEmpty
  | .jobj kvs => !kvs.isEmpty

/-- `v.get(k, dflt)`: defined on a dict, `AttributeError` on anything else. -/
def jget (v : JVal) (k : String) (dflt : JVal) : Except PyErr JVal :=
  match v with
  | .jobj kvs => .ok ((assoc_get kvs k).getD dflt)
  | _ => .error .attributeError

/-- Python `a or b`. -/
def jor (a b : JVal) : JVal := if jtruthy a then a else b

/-- `s.strip()` on the character list. -/
def strip_chars (cs : List Char) : List Char :=
  ((cs.dropWhile Char.isWhitespace).reverse.dropWhile Char.isWhitespace).reverse

/-- Python `s.strip()`. -/
def py_strip (s : String) : String := String.mk (strip_chars s.toList)

/-- The value of a non-empty all-digit character list, else `none`. -/
def dec_digits_val (cs : List Char) : Option Nat :=
  if cs.isEmpty || !cs.all Char.isDigit then none
  else some (cs.foldl (fun acc c => acc * 10 + (c.toNat - '0'.toNat)) 0)

/-- Python `int(s)` on a string: optional surrounding whitespace, an optional
sign, then decimal digits; anything else raises `ValueError` (`none`). -/
def parse_pyint (s : String) : Option Int :=
  match strip_chars s.toList with
  | '+' :: rest => (dec_digits_val rest).map Int.ofNat
  | '-' :: rest => (dec_digits_val rest).map (fun n => -(n : Int))
  | cs => (dec_digits_val cs).map Int.ofNat

/-- Python `int(x)` on a configuration value: ints pass through, bools coerce,
numeral strings parse (else `ValueError`), anything else `TypeError`. -/
def py_int : JVal → Except PyErr Int
  | .jint n => .ok n
  | .jbool b => .ok (if b then 1 else 0)
  | .jstr s =>
    match parse_pyint s with
    | some n => .ok n
    | none => .error .valueError
  | _ => .error .typeError

/-- `[b.strip().lower() for b in backends if isinstance(b, str)]` (line 165),
with Python's iteration semantics: a list yields its elements, a string its
characters (each a one-character `str`), a dict its keys; iterating anything
else raises `TypeError`. -/
def backend_names : JVal → Except PyErr (List String)
  | .jlist xs => .ok (xs.filterMap fun x => match x with
      | .jstr s => some (py_lower (py_strip s))
      | _ => none)
  | .jstr s => .ok (s.toList.map fun c => py_lower (py_strip (String.singleton c)))
  | .jobj kvs => .ok (kvs.map fun kv => py_lower (py_strip kv.1))
  | _ => .error .typeError

/-- `os.getenv(name, "")`: `TypeError` unless the name is a string. -/
def py_getenv (env : String → Option String) : JVal → Except PyErr String
  | .jstr s => .ok ((env s).getD "")
  | _ => .error .typeError

/-- `[int(x) for x in l]`: left to right, the first exception propagates. -/
def map_py_int : List JVal → Except PyErr (List Int)
  | [] => .ok []
  | x :: xs =>
    match py_int x with
    | .error e => .error e
    | .ok n =>
      match map_py_int xs with
      | .error e => .error e
      | .ok ns => .ok (n :: ns)

/-- Python `s.split(",")` on the character list: the pieces between commas,
empty pieces kept. -/
def split_comma_chars : List Char → List (List Char)
  | [] => [[]]
  | c :: rest =>
    let r := split_comma_chars rest
    if c = ',' then [] :: r
    else match r with
      | [] => [[c]]
      | p :: ps => (c :: p) :: ps

/-- The chat-id normalization of `_init_backends` (lines 171-180): a list maps
`int(x)` over its elements; a string containing a comma is split, stripped,
empties dropped and each piece `int()`-parsed; any other string or an int
(or bool) becomes the one-element list `[int(x)]`; any other value leaves the
id list empty. -/
def parse_chat_ids : JVal → Except PyErr (List Int)
  | .jlist xs => map_py_int xs
  | .jstr s =>
    if s.toList.contains ',' then
      map_py_int (((((split_comma_chars s.toList).map
        (fun cs => String.mk cs)).map py_strip).filter
        (fun p => !(p == ""))).map JVal.jstr)
    else (py_int (.jstr s)).map fun n => [n]
  | .jint n => .ok [n]
  | .jbool b => .ok [if b then 1 else 0]
  | _ => .ok []

/-- The `TelegramBackend` construction arguments (lines 182-190). -/
structure TelegramCfg where
  token : String
  chat_ids : List Int
  parse_mode : JVal
  disable_web_preview : Bool
  timeout_s : Int

/-- A configured backend (lines 182-197). -/
inductive BackendCfg where
  | telegram (t : TelegramCfg)
  | discord (webhook : String) (timeout_s : Int)

/-- What `AlertManager.__init__` (lines 106-135) together with
`_init_backends` (lines 163-201) establishes: the flags and numbers parsed
from the configuration, the resolved backends, and the log lines written
through `_log` during construction. -/
structure Manager where
  enabled : Bool
  cooldown_default : Int
  dedupe_seconds : Int
  include_host : Bool
  include_identity : Bool
  backends : List BackendCfg
  logs : List (String × String)

/-- The no-backend warning of `_init_backends` (line 200). -/
def no_backend_warning : String × String :=
  ("WARN", "ALERTS: enabled, but no usable backends configured -> alerts disabled")

/-- `AlertManager.__init__` (lines 106-135) followed by `_init_backends`
(lines 163-201, run only when enabled): an `.error` is a Python exception
escaping construction. `_load_state` and `_log` never raise (their bodies
are fully wrapped in `try`/`except`) and so do not appear. -/
def init_manager (cfg : JVal) (env : String → Option String) : Except PyErr Manager := do
  let acfg := match cfg with
    | .jobj kvs => (assoc_get kvs "alerts").getD (.jobj [])
    | _ => .jobj []
  let enabled := jtruthy (← jget acfg "enabled" (.jbool false))
  let cooldown_default ← py_int (← jget acfg "cooldown_seconds_default" (.jint 900))
  let _cooldowns := jor (← jget acfg "cooldowns" (.jobj [])) (.jobj [])
  let dedupe_seconds ← py_int (← jget acfg "dedupe_seconds" (.jint 300))
  let include_host := jtruthy (← jget acfg "include_host" (.jbool true))
  let include_identity := jtruthy (← jget acfg "include_identity" (.jbool true))
  if !enabled then
    return { enabled := false, cooldown_default, dedupe_seconds,
             include_host, include_identity, backends := [], logs := [] }
  let bnames ← backend_names (jor (← jget acfg "backends" (.jlist [])) (.jlist []))
  let backs1 ← if bnames.contains "telegram" then do
      let tcfg := jor (← jget acfg "telegram" (.jobj [])) (.jobj [])
      let token ← py_getenv env (← jget tcfg "token_env" (.jstr "RUST_WD_TELEGRAM_TOKEN"))
      let cid := jor (← jget tcfg "chat_ids" .jnull) (← jget tcfg "chat_id" .jnull)
      let ids ← parse_chat_ids cid
      if token ≠ "" ∧ ids ≠ [] then do
        let pm ← jget tcfg "parse_mode" (.jstr "HTML")
        let dwp := jtruthy (← jget tcfg "disable_web_preview" (.jbool true))
        let ts ← py_int (← jget tcfg "timeout_s" (.jint 8))
        pure [BackendCfg.telegram ⟨token, ids, pm, dwp, ts⟩]
      else pure []
    else pure []
  let backs2 ← if bnames.contains "discord" then do
      let dcfg := jor (← jget acfg "discord" (.jobj [])) (.jobj [])
      let webhook ← py_getenv env (← jget dcfg "webhook_env" (.jstr "RUST_WD_DISCORD_WEBHOOK"))
      if webhook ≠ "" then do
        let ts ← py_int (← jget dcfg "timeout_s" (.jint 8))
        pure [BackendCfg.discord webhook ts]
      else pure []
    else pure []
  let backends := backs1 ++ backs2
  if backends.isEmpty then
    return { enabled := false, cooldown_default, dedupe_seconds,
             include_host, include_identity, backends := [],
             logs := [no_backend_warning] }
  return { enabled := true, cooldown_default, dedupe_seconds,
           include_host, include_identity, backends, logs := [] }

/-! ## The worker loop against the raw loaded state

`_load_state` (lines 144-151) replaces `self._state` with whatever
`json.load` returned for the state file: any well-formed JSON document, not
necessarily the three-mapping shape `_should_send` and `_mark_sent` assume.
The state-file JSON is modelled separately from the configuration JSON
because its numbers are Python floats (`time.time()` values): `SVal` carries
them as rationals. -/

/-- A JSON value as `json.load` returns it for the persisted state file. -/
inductive SVal where
  | snull
  | sbool (b : Bool)
  | snum (q : ℚ)
  | sstr (s : String)
  | slist (xs : List SVal)
  | sobj (kvs : List (String × SVal))

/-- Python truthiness of a loaded-state value. -/
def struthy : SVal → Bool
  | .snull => false
  | .sbool b => b
  | .snum q => q ≠ 0
  | .sstr s => s ≠ ""
  | .slist xs => !xs.isEmpty
  | .sobj kvs => !kvs.isEmpty

/-- `v.get(k, dflt)` on a loaded-state value: defined on a dict,
`AttributeError` on anything else. -/
def sget (v : SVal) (k : String) (dflt : SVal) : Except PyErr SVal :=
  match v with
  | .sobj kvs => .ok ((assoc_get kvs k).getD dflt)
  | _ => .error .attributeError

/-- Python `a or b` on loaded-state values. -/
def sor (a b : SVal) : SVal := if struthy a then a else b

/-- Python dict item assignment `d[k] = v`: replace in place, else append. -/
def assoc_set {β : Type} (l : List (String × β)) (k : String) (v : β) :
    List (String × β) :=
  match l with
  | [] => [(k, v)]
  | (k', v') :: t => if k' = k then (k, v) :: t else (k', v') :: assoc_set t k v

/-- The value of a decimal digit list, most significant first (empty = 0). -/
def dec_digits_num (cs : List Char) : Nat :=
  cs.foldl (fun a c => a * 10 + (c.toNat - '0'.toNat)) 0

/-- An unsigned Python `float` literal: `digits`, `digits.digits`,
`.digits` or `digits.` (exponent, underscore and `inf`/`nan` forms are not
modelled). -/
def parse_ufloat (cs : List Char) : Option ℚ :=
  let ip := cs.takeWhile (fun c => c ≠ '.')
  match cs.dropWhile (fun c => c ≠ '.') with
  | [] =>
    if ip.isEmpty || !ip.all Char.isDigit then none
    else some ((dec_digits_num ip : ℚ))
  | _ :: frac =>
    if frac.contains '.' then none
    else if ip.isEmpty && frac.isEmpty then none
    else if ip.all Char.isDigit && frac.all Char.isDigit then
      some ((dec_digits_num ip : ℚ) + (dec_digits_num frac : ℚ) / ((10 : ℚ) ^ frac.length))
    else none

/-- Python `float(s)` on a string: optional surrounding whitespace, an
optional sign, then an unsigned float literal; else `ValueError` (`none`). -/
def parse_pyfloat (s : String) : Option ℚ :=
  match strip_chars s.toList with
  | '+' :: rest => parse_ufloat rest
  | '-' :: rest => (parse_ufloat rest).map Neg.neg
  | cs => parse_ufloat cs

/-- Python `float(x)` on a loaded-state value: numbers pass through, bools
coerce, numeral strings parse (else `ValueError`), anything else
(`None`, lists, dicts) `TypeError`. -/
def py_float : SVal → Except PyErr ℚ
  | .snum q => .ok q
  | .sbool b => .ok (if b then 1 else 0)
  | .sstr s =>
    match parse_pyfloat s with
    | some q => .ok q
    | none => .error .valueError
  | _ => .error .typeError

/-- Python `int(x)` on a loaded-state value: numbers truncate toward zero,
bools coerce, integer-numeral strings parse, anything else raises. -/
def py_int_s : SVal → Except PyErr Int
  | .snum q => .ok (if q < 0 then -⌊-q⌋ else ⌊q⌋)
  | .sbool b => .ok (if b then 1 else 0)
  | .sstr s =>
    match parse_pyint s with
    | some n => .ok n
    | none => .error .valueError
  | _ => .error .typeError

/-- Lines 261 and 265 against the raw loaded state:
`self._state["suppressed"][a.event] = int(self._state.get("suppressed", {}).get(a.event, 0) or 0) + 1`.
Python evaluates the assigned value first, then the target chain:
`self._state["suppressed"]` raises `KeyError` when the key is absent, and the
item assignment raises `TypeError` when the entry is not a dict. -/
def bump_suppressed_loaded (st : SVal) (event : String) : Except PyErr SVal := do
  let v3 ← sget st "suppressed" (.sobj [])
  let v3e ← sget v3 event (.snum 0)
  let n ← py_int_s (sor v3e (.snum 0))
  match st with
  | .sobj kvs =>
    match assoc_get kvs "suppressed" with
    | none => .error .keyError
    | some (.sobj skvs) =>
      .ok (.sobj (assoc_set kvs "suppressed"
        (.sobj (assoc_set skvs event (.snum ((n + 1 : Int) : ℚ))))))
    | some _ => .error .typeError
  | _ => .error .typeError

/-- `_should_send` (lines 251-269) against the raw loaded state `self._state`:
both timestamp reads happen before the comparisons (lines 256-257), and any
of the unguarded dict lookups or numeric coercions can raise.
`_cooldown_for` reads the configuration, never the state. -/
def should_send_loaded (cfg : AlertCfg) (hash : String → String) (now : ℚ)
    (st : SVal) (a : Alert) (rendered : String) : Except PyErr (Bool × SVal) := do
  let key := dedupe_key hash a rendered
  let v1 ← sget st "last_event" (.sobj [])
  let v1e ← sget v1 a.event (.snum 0)
  let last_evt ← py_float (sor v1e (.snum 0))
  let v2 ← sget st "last_key" (.sobj [])
  let v2k ← sget v2 key (.snum 0)
  let last_k ← py_float (sor v2k (.snum 0))
  let cd := cooldown_for cfg a.event
  if now - last_evt < (cd : ℚ) then do
    let st' ← bump_suppressed_loaded st a.event
    pure (false, st')
  else if now - last_k < (cfg.dedupe_seconds : ℚ) then do
    let st' ← bump_suppressed_loaded st a.event
    pure (false, st')
  else pure (true, st)

/-- Python `x in v` for a string `x`: dict key membership, list membership,
substring test on a string; `TypeError` on anything else. -/
def py_in_s (x : String) : SVal → Except PyErr Bool
  | .sobj kvs => .ok (assoc_get kvs x).isSome
  | .slist xs => .ok (xs.any fun e => match e with | .sstr s => s = x | _ => false)
  | .sstr s => .ok (str_contains s x)
  | _ => .error .typeError

/-- `d.setdefault(k, {})[k2] = v` (lines 275-276): insert `{}` when `k` is
absent, then item-assign into the entry — `TypeError` when the existing
entry is not a dict. -/
def setdefault_assign (kvs : List (String × SVal)) (k k2 : String) (v : SVal) :
    Except PyErr (List (String × SVal)) :=
  match assoc_get kvs k with
  | none => .ok (assoc_set kvs k (.sobj [(k2, v)]))
  | some (.sobj m) => .ok (assoc_set kvs k (.sobj (assoc_set m k2 v)))
  | some _ => .error .typeError

/-- `_mark_sent` (lines 271-280) against the raw loaded state. The final
`_save_state` call swallows its own errors (lines 153-161) and cannot raise;
everything before it can. A non-dict state raises `AttributeError` at
`setdefault`. -/
def mark_sent_loaded (hash : String → String) (now : ℚ) (st : SVal)
    (a : Alert) (rendered : String) : Except PyErr SVal := do
  let key := dedupe_key hash a rendered
  match st with
  | .sobj kvs => do
    let kvs1 ← setdefault_assign kvs "last_event" a.event (.snum now)
    let kvs2 ← setdefault_assign kvs1 "last_key" key (.snum now)
    let sup ← sget (.sobj kvs2) "suppressed" (.sobj [])
    let has_evt ← py_in_s a.event sup
    if has_evt then
      match assoc_get kvs2 "suppressed" with
      | none => .error .keyError
      | some (.sobj skvs) =>
        .ok (.sobj (assoc_set kvs2 "suppressed"
          (.sobj (assoc_set skvs a.event (.snum 0)))))
      | some _ => .error .typeError
    else .ok (.sobj kvs2)
  | _ => .error .attributeError

/-- One worker-loop iteration of `_run` on a dequeued alert (lines 289-302)
against the raw loaded state: render, decide, and if allowed deliver, then
mark on any success. Only the backend `send` calls sit inside a
`try`/`except Exception` (lines 295-299); `_render`, `_should_send` and
`_mark_sent` run unguarded, so an exception from any of them propagates out
of the iteration (the `.error` case) and terminates the worker thread.
`now_dec` and `now_send` are the two `_now()` reads (lines 252 and 272). -/
def run_iter_loaded (cfg : AlertCfg) (host : String) (hash : String → String)
    (now_dec now_send : ℚ) (st : SVal) (a : Alert) (outs : List SendOutcome) :
    Except PyErr (SVal × Option SVal) :=
  match render cfg.include_host cfg.include_identity host a with
  | .error e => .error e
  | .ok rendered =>
    match should_send_loaded cfg hash now_dec st a rendered with
    | .error e => .error e
    | .ok dec =>
      if dec.1 then
        if (fan_out outs).1 then
          match mark_sent_loaded hash now_send dec.2 a rendered with
          | .error e => .error e
          | .ok st2 => .ok (st2, some st2)
        else .ok (dec.2, none)
      else .ok (dec.2, none)

/-- An operation of the worker on the suppression state: a cooldown/dedupe
decision (`_should_send`) or a confirmed-send marking (`_mark_sent`), each at
the clock value its `_now()` read returns. -/
inductive WOp where
  | dec (a : Alert) (rendered : String)
  | mark (a : Alert) (rendered : String)

/-- Apply one operation at clock value `t`. -/
def apply_op (cfg : AlertCfg) (hash : String → String) (t : ℚ) (st : SuppState) :
    WOp → SuppState
  | .dec a r => (should_send cfg hash t st a r).2
  | .mark a r => mark_sent hash t st a r

/-- The sequence of states a trace of timestamped operations passes through,
starting state included. -/
def trace_states (cfg : AlertCfg) (hash : String → String) :
    SuppState → List (ℚ × WOp) → List SuppState
  | st, [] => [st]
  | st, (t, op) :: rest => st :: trace_states cfg hash (apply_op cfg hash t st op) rest

/-- Per-key timestamp order between suppression states: no `last_event` or
`last_key` entry moves backward. -/
def state_le (s s' : SuppState) : Prop :=
  ∀ k, s.last_event k ≤ s'.last_event k ∧ s.last_key k ≤ s'.last_key k

/-- Every timestamp stored in the state is at most `t`. -/
def state_bounded (s : SuppState) (t : ℚ) : Prop :=
  ∀ k, s.last_event k ≤ t ∧ s.last_key k ≤ t

/-! ## Reduction lemmas for the `Except` monad -/

theorem except_bind_ok {ε α β : Type} (a : α) (f : α → Except ε β) :
    (Except.ok a : Except ε α) >>= f = f a := rfl

theorem except_pure_eq {ε α : Type} (a : α) : (pure a : Except ε α) = Except.ok a := rfl

/-! ## Lemmas about `split_telegram` -/

theorem split_telegram_of_le (msg : List Char) (h : msg.length ≤ TELEGRAM_LIMIT) :
    split_telegram msg = [msg] := by
  rw [split_telegram]
  simp [h]

theorem split_telegram_of_gt (msg : List Char) (h : TELEGRAM_LIMIT < msg.length) :
    split_telegram msg =
      msg.take TELEGRAM_LIMIT :: split_telegram (msg.drop TELEGRAM_LIMIT) := by
  rw [split_telegram]
  simp [Nat.not_le.mpr h]

theorem split_telegram_flatten (msg : List Char) :
    (split_telegram msg).flatten = msg := by
  induction msg using split_telegram.induct with
  | case1 msg h =>
    rw [split_telegram_of_le msg h]
    simp
  | case2 msg h ih =>
    rw [split_telegram_of_gt msg (Nat.not_le.mp h)]
    simp [List.flatten, ih]

theorem split_telegram_chunk_le (msg : List Char) :
    ∀ c ∈ split_telegram msg, c.length ≤ TELEGRAM_LIMIT := by
  induction msg using split_telegram.induct with
  | case1 msg h =>
    rw [split_telegram_of_le msg h]
    simpa using h
  | case2 msg h ih =>
    rw [split_telegram_of_gt msg (Nat.not_le.mp h)]
    intro c hc
    rcases List.mem_cons.mp hc with rfl | hc
    · simp
    · exact ih c hc

theorem split_telegram_chunk_ne (msg : List Char) :
    msg ≠ [] → ∀ c ∈ split_telegram msg, c ≠ [] := by
  induction msg using split_telegram.induct with
  | case1 msg h =>
    intro hm c hc
    rw [split_telegram_of_le msg h] at hc
    rcases List.mem_singleton.mp hc with rfl
    exact hm
  | case2 msg h ih =>
    intro _hm c hc
    rw [split_telegram_of_gt msg (Nat.not_le.mp h)] at hc
    have hlen : TELEGRAM_LIMIT < msg.length := Nat.not_le.mp h
    rcases List.mem_cons.mp hc with rfl | hc
    · have hlt : (msg.take TELEGRAM_LIMIT).length = TELEGRAM_LIMIT := by
        simp [List.length_take]
        omega
      intro hnil
      rw [hnil] at hlt
      simp [TELEGRAM_LIMIT] at hlt
    · refine ih ?_ c hc
      have hld : (msg.drop TELEGRAM_LIMIT).length = msg.length - TELEGRAM_LIMIT := by
        simp
      intro hnil
      rw [hnil] at hld
      simp at hld
      omega

theorem split_telegram_ne_nil (msg : List Char) : split_telegram msg ≠ [] := by
  by_cases h : msg.length ≤ TELEGRAM_LIMIT
  · rw [split_telegram_of_le msg h]
    simp
  · rw [split_telegram_of_gt msg (Nat.not_le.mp h)]
    simp

theorem split_telegram_count (k : Nat) (msg : List Char)
    (h : msg.length = TELEGRAM_LIMIT * k + 1) :
    (split_telegram msg).length = k + 1 := by
  induction k generalizing msg with
  | zero =>
    have : msg.length ≤ TELEGRAM_LIMIT := by
      rw [h]
      simp [TELEGRAM_LIMIT]
    rw [split_telegram_of_le msg this]
    rfl
  | succ k ih =>
    have hgt : TELEGRAM_LIMIT < msg.length := by
      rw [h]
      have : 0 < TELEGRAM_LIMIT := by simp [TELEGRAM_LIMIT]
      nlinarith
    rw [split_telegram_of_gt msg hgt]
    have hd : (msg.drop TELEGRAM_LIMIT).length = TELEGRAM_LIMIT * k + 1 := by
      simp [h]
      ring_nf
      omega
    rw [List.length_cons, ih _ hd]

/-! ## The claims -/

/-- C1: the decision engine `_should_send` consults exactly the key
`a.event ++ ":" ++ hash r` in `last_key`; it suppresses, bumping
`suppressed[a.event]` by exactly one and touching no other counter, when the
event cooldown has not elapsed, or (otherwise) when the dedupe window for
that key has not elapsed; else it allows and returns the state unchanged.
In every case `last_event` and `last_key` are left untouched — timestamps
move only in `_mark_sent`, after a confirmed send. -/
theorem c1_decision_engine (cfg : AlertCfg) (hash : String → String) (now : ℚ)
    (st : SuppState) (a : Alert) (r : String) :
    ((should_send cfg hash now st a r).2.last_event = st.last_event
      ∧ (should_send cfg hash now st a r).2.last_key = st.last_key)
    ∧ (now - st.last_event a.event < (cooldown_for cfg a.event : ℚ) →
        should_send cfg hash now st a r = (false, bump_suppressed st a.event))
    ∧ (¬ now - st.last_event a.event < (cooldown_for cfg a.event : ℚ) →
        now - st.last_key (dedupe_key hash a r) < (cfg.dedupe_seconds : ℚ) →
        should_send cfg hash now st a r = (false, bump_suppressed st a.event))
    ∧ (¬ now - st.last_event a.event < (cooldown_for cfg a.event : ℚ) →
        ¬ now - st.last_key (dedupe_key hash a r) < (cfg.dedupe_seconds : ℚ) →
        should_send cfg hash now st a r = (true, st))
    ∧ ((bump_suppressed st a.event).suppressed a.event = st.suppressed a.event + 1
      ∧ ∀ e, e ≠ a.event →
          (bump_suppressed st a.event).suppressed e = st.suppressed e) := by
  refine ⟨⟨?_, ?_⟩, ?_, ?_, ?_, ?_, ?_⟩
  · simp only [should_send]
    split_ifs <;> rfl
  · simp only [should_send]
    split_ifs <;> rfl
  · intro h1
    simp only [should_send]
    rw [if_pos h1]
  · intro h1 h2
    simp only [should_send]
    rw [if_neg h1, if_pos h2]
  · intro h1 h2
    simp only [should_send]
    rw [if_neg h1, if_neg h2]
  · simp [bump_suppressed]
  · intro e he
    simp [bump_suppressed, Function.update_noteq he]

theorem fan_out_count (outs : List SendOutcome) : (fan_out outs).2 = outs.length := by
  induction outs with
  | nil => rfl
  | cons o rest ih => simp [fan_out, ih]

theorem fan_out_ok (outs : List SendOutcome) :
    (fan_out outs).1 = true ↔ SendOutcome.ret true ∈ outs := by
  induction outs with
  | nil => simp [fan_out]
  | cons o rest ih =>
    cases o with
    | ret b =>
      cases b <;> simp [fan_out, ih]
    | exc => simp [fan_out, ih]

/-- C2: on an allowed alert the worker invokes every configured channel (one
transport attempt per backend whatever the outcomes); `ok_any` is true exactly
when some channel returned `True`; in that case `last_event[a.event]` and
`last_key[key]` are stamped with `now`, `suppressed[a.event]` is reset to 0,
no other entry of the three mappings changes, and the updated full state is
what `_save_state` persists; if no channel succeeds the state is returned
unchanged and `_save_state` is not called. -/
theorem c2_fanout_marking (hash : String → String) (now : ℚ) (st : SuppState)
    (a : Alert) (r : String) (outs : List SendOutcome) :
    ((fan_out outs).2 = outs.length)
    ∧ ((fan_out outs).1 = true ↔ SendOutcome.ret true ∈ outs)
    ∧ (SendOutcome.ret true ∈ outs →
        (deliver_and_mark hash now st a r outs).1.last_event a.event = now
        ∧ (deliver_and_mark hash now st a r outs).1.last_key (dedupe_key hash a r) = now
        ∧ (deliver_and_mark hash now st a r outs).1.suppressed a.event = 0
        ∧ (deliver_and_mark hash now st a r outs).2
            = some (deliver_and_mark hash now st a r outs).1
        ∧ (∀ e, e ≠ a.event →
            (deliver_and_mark hash now st a r outs).1.last_event e = st.last_event e
            ∧ (deliver_and_mark hash now st a r outs).1.suppressed e = st.suppressed e)
        ∧ (∀ k, k ≠ dedupe_key hash a r →
            (deliver_and_mark hash now st a r outs).1.last_key k = st.last_key k))
    ∧ (SendOutcome.ret true ∉ outs → deliver_and_mark hash now st a r outs = (st, none)) := by
  refine ⟨fan_out_count outs, fan_out_ok outs, ?_, ?_⟩
  · intro h
    have hb : (fan_out outs).1 = true := (fan_out_ok outs).mpr h
    have hd : deliver_and_mark hash now st a r outs
        = (mark_sent hash now st a r, some (mark_sent hash now st a r)) := by
      simp [deliver_and_mark, hb]
    rw [hd]
    refine ⟨?_, ?_, ?_, rfl, ?_, ?_⟩
    · simp [mark_sent]
    · simp [mark_sent]
    · simp [mark_sent]
    · intro e he
      exact ⟨by simp [mark_sent, Function.update_noteq he],
             by simp [mark_sent, Function.update_noteq he]⟩
    · intro k hk
      simp [mark_sent, Function.update_noteq hk]
  · intro h
    have hb : (fan_out outs).1 = false := by
      cases hfb : (fan_out outs).1
      · rfl
      · exact absurd ((fan_out_ok outs).mp hfb) h
    simp [deliver_and_mark, hb]

/-- The alert configuration with the source's defaults: cooldown 900, no
per-event overrides, dedupe 300, both include flags on (lines 118-122). -/
def default_cfg : AlertCfg :=
  { cooldown_default := 900, cooldowns := fun _ => none, dedupe_seconds := 300,
    include_host := true, include_identity := true }

/-- The alert `emit("e", "INFO", "t", "x", identity=1)` constructs: its
`identity` field holds the truthy non-string integer `1`. -/
def bad_ident_alert : Alert :=
  { event := "e", level := "INFO", title := "t", text := "x",
    fields := [("identity", .vint 1)], ts := 0 }

/-- A well-behaved alert: `emit("e", "INFO", "t", "x")`, no extra fields. -/
def plain_alert : Alert :=
  { event := "e", level := "INFO", title := "t", text := "x", fields := [], ts := 0 }

/-- The loaded state a syntactically well-formed but malformed state file
yields: `{"last_event": {"e": "abc"}}`. -/
def bad_state : SVal := .sobj [("last_event", .sobj [("e", .sstr "abc")])]

/-- C3 counterexample, on both unguarded fronts the claim asserts safe:
(1) rendering `bad_ident_alert` raises `TypeError` at `'[' + identity + ']'`
(line 236); (2) deciding `plain_alert` (event `"e"`) against the state loaded
from the malformed file `{"last_event": {"e": "abc"}}` raises `ValueError`
at `float("abc")` (line 256). `_render` and `_should_send` are called outside
any `try` in `_run` (lines 289-290), so either exception escapes the loop
iteration and terminates the worker thread. -/
theorem c3_counterexample :
    run_iter_loaded default_cfg "" (fun _ => "h") 0 0 (.sobj []) bad_ident_alert []
      = .error .typeError
    ∧ run_iter_loaded default_cfg "" (fun _ => "h") 0 0 bad_state plain_alert []
      = .error .valueError :=
  ⟨rfl, rfl⟩

/-- C3 amended: exceptions from channel delivery and state persistence never
terminate the worker loop — every backend `send` is inside
`try`/`except Exception` and `_save_state`/`_log` swallow their own errors —
so when an iteration raises, the exception originated in `_render`, in
`_should_send`, or in the post-send `_mark_sent` mutation, the three calls
`_run` leaves unguarded (each of which can raise: see the counterexample);
and whenever those unguarded calls return, the iteration returns normally
whatever the delivery outcomes, raising backends included. -/
theorem c3_amended (cfg : AlertCfg) (host : String) (hash : String → String)
    (now_dec now_send : ℚ) (st : SVal) (a : Alert) (outs : List SendOutcome) :
    (∀ e, run_iter_loaded cfg host hash now_dec now_send st a outs = .error e →
      render cfg.include_host cfg.include_identity host a = .error e
      ∨ (∃ r, render cfg.include_host cfg.include_identity host a = .ok r
          ∧ should_send_loaded cfg hash now_dec st a r = .error e)
      ∨ (∃ r dec, render cfg.include_host cfg.include_identity host a = .ok r
          ∧ should_send_loaded cfg hash now_dec st a r = .ok dec
          ∧ dec.1 = true ∧ (fan_out outs).1 = true
          ∧ mark_sent_loaded hash now_send dec.2 a r = .error e))
    ∧ (∀ r dec, render cfg.include_host cfg.include_identity host a = .ok r →
        should_send_loaded cfg hash now_dec st a r = .ok dec →
        (dec.1 = false →
          run_iter_loaded cfg host hash now_dec now_send st a outs = .ok (dec.2, none))
        ∧ ((fan_out outs).1 = false →
          run_iter_loaded cfg host hash now_dec now_send st a outs = .ok (dec.2, none))
        ∧ (dec.1 = true → ∀ st2, mark_sent_loaded hash now_send dec.2 a r = .ok st2 →
            (fan_out outs).1 = true →
            run_iter_loaded cfg host hash now_dec now_send st a outs
              = .ok (st2, some st2))) := by
  constructor
  · intro e he
    cases hr : render cfg.include_host cfg.include_identity host a with
    | error e' =>
      have hrun : run_iter_loaded cfg host hash now_dec now_send st a outs
          = .error e' := by
        simp [run_iter_loaded, hr]
      rw [hrun] at he
      injection he with he'
      rw [← he']
      exact Or.inl rfl
    | ok r =>
      cases hd : should_send_loaded cfg hash now_dec st a r with
      | error e' =>
        have hrun : run_iter_loaded cfg host hash now_dec now_send st a outs
            = .error e' := by
          simp [run_iter_loaded, hr, hd]
        rw [hrun] at he
        injection he with he'
        rw [← he']
        exact Or.inr (Or.inl ⟨r, rfl, hd⟩)
      | ok dec =>
        by_cases hd1 : dec.1 = true
        · by_cases hf : (fan_out outs).1 = true
          · cases hm : mark_sent_loaded hash now_send dec.2 a r with
            | error e' =>
              have hrun : run_iter_loaded cfg host hash now_dec now_send st a outs
                  = .error e' := by
                simp [run_iter_loaded, hr, hd, hd1, hf, hm]
              rw [hrun] at he
              injection he with he'
              rw [← he']
              exact Or.inr (Or.inr ⟨r, dec, rfl, hd, hd1, hf, hm⟩)
            | ok st2 =>
              have hrun : run_iter_loaded cfg host hash now_dec now_send st a outs
                  = .ok (st2, some st2) := by
                simp [run_iter_loaded, hr, hd, hd1, hf, hm]
              rw [hrun] at he
              cases he
          · have hf' : (fan_out outs).1 = false := by simpa using hf
            have hrun : run_iter_loaded cfg host hash now_dec now_send st a outs
                = .ok (dec.2, none) := by
              simp [run_iter_loaded, hr, hd, hd1, hf']
            rw [hrun] at he
            cases he
        · have hd1' : dec.1 = false := by simpa using hd1
          have hrun : run_iter_loaded cfg host hash now_dec now_send st a outs
              = .ok (dec.2, none) := by
            simp [run_iter_loaded, hr, hd, hd1']
          rw [hrun] at he
          cases he
  · intro r dec hr hd
    refine ⟨?_, ?_, ?_⟩
    · intro hd1
      simp [run_iter_loaded, hr, hd, hd1]
    · intro hf
      cases hb : dec.1 <;> simp [run_iter_loaded, hr, hd, hb, hf]
    · intro hd1 st2 hm hf
      simp [run_iter_loaded, hr, hd, hd1, hf, hm]

/-- A well-formed loaded state, as `_save_state` would have written it. -/
def good_state : SVal :=
  .sobj [("last_event", .sobj []), ("last_key", .sobj []), ("suppressed", .sobj [])]

/-- The state the witness iteration writes and persists. -/
def good_state_after : SVal :=
  .sobj [("last_event", .sobj [("e", .snum 1000)]),
    ("last_key", .sobj [("e:h", .snum 1000)]),
    ("suppressed", .sobj [])]

/-- C3 amended, exercised concretely: against a well-formed loaded state the
whole iteration — render, allow decision at time 1000, a raising backend
beside a succeeding one, and the mark — returns normally, with the marked
state persisted. -/
theorem c3_witness :
    run_iter_loaded default_cfg "" (fun _ => "h") 1000 1000 good_state
      plain_alert [SendOutcome.exc, SendOutcome.ret true]
      = .ok (good_state_after, some good_state_after) := by
  have hr : render default_cfg.include_host default_cfg.include_identity "" plain_alert
      = .ok "[RustWatchdog] INFO: t\nx" := rfl
  have hc1 : ¬((1000 : ℚ) < 900) := by norm_num
  have hc2 : ¬((1000 : ℚ) < 300) := by norm_num
  have hd : should_send_loaded default_cfg (fun _ => "h") 1000 good_state plain_alert
      "[RustWatchdog] INFO: t\nx" = .ok (true, good_state) := by
    simp [should_send_loaded, sget, assoc_get, sor, struthy, py_float, dedupe_key,
      cooldown_for, default_cfg, good_state, plain_alert, except_bind_ok,
      except_pure_eq, hc1, hc2]
  have hm : mark_sent_loaded (fun _ => "h") 1000 good_state plain_alert
      "[RustWatchdog] INFO: t\nx" = .ok good_state_after := rfl
  simp [run_iter_loaded, hr, hd, hm, fan_out]

/-- C10: `_split_telegram` loses no content — the chunks concatenate back to
the input, every chunk is at most `TELEGRAM_LIMIT` characters, every chunk of
a non-empty input is non-empty, the split is never the empty list (so at
least one transport call is made per recipient), and the empty message yields
exactly the one-element list containing the empty message. -/
theorem c10_split_lossless (msg : List Char) :
    (split_telegram msg).flatten = msg
    ∧ (∀ c ∈ split_telegram msg, c.length ≤ 4096)
    ∧ (msg ≠ [] → ∀ c ∈ split_telegram msg, c ≠ [])
    ∧ split_telegram msg ≠ []
    ∧ split_telegram [] = [([] : List Char)] :=
  ⟨split_telegram_flatten msg, split_telegram_chunk_le msg,
    fun hm => split_telegram_chunk_ne msg hm, split_telegram_ne_nil msg,
    split_telegram_of_le [] (by simp [TELEGRAM_LIMIT])⟩

/-- C4: `emit` (a total function — `queue.Full` is caught and the logging
callback's exceptions are swallowed, so `emit` never raises): a no-op when the
engine is disabled; when the queue is full the newly emitted alert is dropped
and the queue is unchanged (newest dropped, not oldest) and the logging
callback receives a warning exactly when the severity is `ERROR` or
`CRITICAL`; otherwise the alert is appended and nothing is logged. -/
theorem c4_emit_contract (enabled : Bool) (max_queue : Int) (q : List Alert) (a : Alert) :
    (enabled = false → emit enabled max_queue q a = (q, none))
    ∧ (enabled = true → queue_full max_queue q = true →
        (emit enabled max_queue q a).1 = q
        ∧ ((emit enabled max_queue q a).2 = some (queue_full_warning a)
            ↔ (a.level = "ERROR" ∨ a.level = "CRITICAL"))
        ∧ (¬(a.level = "ERROR" ∨ a.level = "CRITICAL") →
            (emit enabled max_queue q a).2 = none))
    ∧ (enabled = true → queue_full max_queue q = false →
        emit enabled max_queue q a = (q ++ [a], none)) := by
  refine ⟨?_, ?_, ?_⟩
  · rintro rfl
    simp [emit]
  · rintro rfl hfull
    have hs : high_severity a.level = true ↔ (a.level = "ERROR" ∨ a.level = "CRITICAL") := by
      simp [high_severity]
    refine ⟨?_, ?_, ?_⟩
    · simp [emit, hfull]
    · rw [← hs]
      cases hh : high_severity a.level <;> simp [emit, hfull, hh]
    · rw [← hs]
      intro hns
      simp at hns
      simp [emit, hfull, hns]
  · rintro rfl hnf
    simp [emit, hnf]

/-- `ok_all` over the transport calls numbered `n, n+1, ..., n+len-1`. -/
def ok_from (t : Nat → TransportResult) : Nat → Nat → Bool
  | _, 0 => true
  | n, len + 1 => (t n == .ok) && ok_from t (n + 1) len

theorem ok_from_iff (t : Nat → TransportResult) (len : Nat) : ∀ n : Nat,
    (ok_from t n len = true ↔ ∀ j, n ≤ j → j < n + len → t j = .ok) := by
  induction len with
  | zero =>
    intro n
    simp only [ok_from]
    constructor
    · intro _ j h1 h2
      omega
    · intro _
      trivial
  | succ len ih =>
    intro n
    simp only [ok_from, Bool.and_eq_true, beq_iff_eq, ih]
    constructor
    · rintro ⟨h0, hrest⟩ j h1 h2
      rcases Nat.eq_or_lt_of_le h1 with rfl | hlt
      · exact h0
      · exact hrest j hlt (by omega)
    · intro h
      exact ⟨h n le_rfl (by omega), fun j h1 h2 => h j (by omega) (by omega)⟩

theorem ok_from_add (t : Nat → TransportResult) (p q : Nat) : ∀ n : Nat,
    ok_from t n (p + q) = (ok_from t n p && ok_from t (n + p) q) := by
  induction p with
  | zero =>
    intro n
    simp [ok_from]
  | succ p ih =>
    intro n
    have h1 : p + 1 + q = (p + q) + 1 := by omega
    have h2 : n + (p + 1) = (n + 1) + p := by omega
    rw [h1]
    simp only [ok_from, ih (n + 1), h2, Bool.and_assoc]

theorem telegram_foldl_chunks (t : Nat → TransportResult) (chunks : List (List Char))
    (b : Bool) (n : Nat) :
    chunks.foldl (fun acc _chunk =>
      match t acc.2 with
      | .ok => (acc.1, acc.2 + 1)
      | .err => (false, acc.2 + 1)) (b, n)
    = (b && ok_from t n chunks.length, n + chunks.length) := by
  induction chunks generalizing b n with
  | nil => simp [ok_from]
  | cons c cs ih =>
    simp only [List.foldl_cons]
    cases ht : t n with
    | ok =>
      simp only [ht]
      rw [ih]
      simp [ok_from, ht]
      omega
    | err =>
      simp only [ht]
      rw [ih]
      simp [ok_from, ht]
      omega

theorem telegram_foldl_chats (t : Nat → TransportResult) (chunks : List (List Char))
    (cids : List Int) (b : Bool) (n : Nat) :
    cids.foldl (fun acc _chat =>
      chunks.foldl (fun acc _chunk =>
        match t acc.2 with
        | .ok => (acc.1, acc.2 + 1)
        | .err => (false, acc.2 + 1)) acc) (b, n)
    = (b && ok_from t n (cids.length * chunks.length),
       n + cids.length * chunks.length) := by
  induction cids generalizing b n with
  | nil => simp [ok_from]
  | cons c cs ih =>
    simp only [List.foldl_cons]
    rw [telegram_foldl_chunks, ih]
    have h1 : (cs.length + 1) * chunks.length = chunks.length + cs.length * chunks.length := by
      ring
    rw [List.length_cons, h1, ok_from_add t chunks.length (cs.length * chunks.length) n,
      Bool.and_assoc]
    simp only [Prod.mk.injEq]
    refine ⟨?_, by omega⟩
    trivial

theorem telegram_send_spec (t : Nat → TransportResult) (cids : List Int)
    (rendered : List Char) :
    telegram_send t cids rendered
      = (ok_from t 0 (cids.length * (split_telegram rendered).length),
         cids.length * (split_telegram rendered).length) := by
  unfold telegram_send
  rw [telegram_foldl_chats]
  simp

/-- C5: the Telegram channel's aggregate result is `True` exactly when every
one of its `len(chat_ids) * len(chunks)` transport calls succeeds — a failed
call flips the aggregate to `False` but the remaining calls are still all
attempted (the call count never depends on the outcomes); the Discord channel
returns `True` exactly when its single call succeeds. Every transport failure
(the caught `HTTPError`/`URLError`/`TimeoutError`/`OSError` family, the
delivery capability's failure modes) reduces to a boolean; neither `send`
propagates it. -/
theorem c5_channel_aggregate (t : Nat → TransportResult) (cids : List Int)
    (rendered : List Char) (d : TransportResult) :
    ((telegram_send t cids rendered).2
        = cids.length * (split_telegram rendered).length)
    ∧ ((telegram_send t cids rendered).1 = true
        ↔ ∀ i < cids.length * (split_telegram rendered).length, t i = .ok)
    ∧ (discord_send d = true ↔ d = .ok) := by
  rw [telegram_send_spec]
  refine ⟨rfl, ?_, ?_⟩
  · rw [show (ok_from t 0 (cids.length * (split_telegram rendered).length),
          cids.length * (split_telegram rendered).length).1
        = ok_from t 0 (cids.length * (split_telegram rendered).length) from rfl,
      ok_from_iff]
    constructor
    · intro h i hi
      exact h i (Nat.zero_le i) (by omega)
    · intro h j _ hj
      exact h j (by omega)
  · cases d <;> simp [discord_send]

/-- A 4096-character title (`"a" * 4096`). -/
def long_title : String := String.mk (List.replicate 4096 'a')

/-- An alert whose body text is the single character `"x"` — length
`4096*0 + 1` — but whose title is 4096 characters long. -/
def long_title_alert : Alert :=
  { event := "e", level := "E", title := long_title, text := "x", fields := [], ts := 0 }

theorem long_title_alert_rendered :
    render false false "" long_title_alert
      = .ok ("[RustWatchdog]" ++ "" ++ "" ++ " " ++ "E" ++ ": " ++ long_title
          ++ "\n" ++ "x") := rfl

theorem long_title_rendered_length :
    ("[RustWatchdog]" ++ "" ++ "" ++ " " ++ "E" ++ ": " ++ long_title
        ++ "\n" ++ "x").length = 4116 := by
  have h1 : long_title.length = 4096 := by
    rw [long_title, String.length_mk, List.length_replicate]
  simp only [String.length_append, h1]
  decide

/-- C7 counterexample: the claim ties the chunk count to the alert's *body
text* length, but `TelegramBackend.send` splits the *rendered* message (header
line included). `long_title_alert` has body text of length `4096*0 + 1`, yet
its rendered message is 4116 characters, which splits into 2 chunks, not
`0 + 1`. -/
theorem c7_counterexample :
    long_title_alert.text.length = 4096 * 0 + 1
    ∧ render false false "" long_title_alert
        = .ok ("[RustWatchdog]" ++ "" ++ "" ++ " " ++ "E" ++ ": " ++ long_title
            ++ "\n" ++ "x")
    ∧ (split_telegram ("[RustWatchdog]" ++ "" ++ "" ++ " " ++ "E" ++ ": " ++ long_title
            ++ "\n" ++ "x").toList).length ≠ 0 + 1 := by
  refine ⟨by decide, long_title_alert_rendered, ?_⟩
  have hlen : ("[RustWatchdog]" ++ "" ++ "" ++ " " ++ "E" ++ ": " ++ long_title
      ++ "\n" ++ "x").toList.length = 4116 := long_title_rendered_length
  rw [split_telegram_of_gt _ (by rw [hlen]; decide)]
  rw [split_telegram_of_le _ (by rw [List.length_drop, hlen]; decide)]
  simp only [List.length_cons, List.length_nil]
  omega

/-- C7 amended: the `k+1`-chunk law holds of the string actually sent through
the length-limited channel — the rendered message: a rendered message of
length `4096*k + 1` splits into exactly `k+1` chunks, hence `k+1` transport
calls per configured recipient (`len(chat_ids) * (k+1)` in total). For the
body text alone the law fails (see the counterexample) because the rendered
message also carries the header and fields lines. -/
theorem c7_amended (k : Nat) (msg : List Char) (t : Nat → TransportResult)
    (cids : List Int) (h : msg.length = 4096 * k + 1) :
    (split_telegram msg).length = k + 1
    ∧ (telegram_send t cids msg).2 = cids.length * (k + 1) := by
  have hc := split_telegram_count k msg (by simpa [TELEGRAM_LIMIT] using h)
  refine ⟨hc, ?_⟩
  rw [telegram_send_spec]
  simp [hc]

/-- C7 amended, witnessed at `k = 0`: a one-character message is one chunk and
one transport call for the single configured recipient. -/
theorem c7_witness :
    (['x'] : List Char).length = 4096 * 0 + 1
    ∧ (split_telegram ['x']).length = 0 + 1
    ∧ (telegram_send (fun _ => .ok) [(1 : Int)] ['x']).2 = 1 * (0 + 1) :=
  ⟨by decide, (c7_amended 0 ['x'] (fun _ => .ok) [1] (by decide)).1,
    (c7_amended 0 ['x'] (fun _ => .ok) [1] (by decide)).2⟩

/-! ## Association-list lemmas (Python dict lookups) -/

theorem assoc_get_eq_of_mem {β : Type} (l : List (String × β)) (k : String) (v : β)
    (hnd : (l.map Prod.fst).Nodup) (hm : (k, v) ∈ l) : assoc_get l k = some v := by
  induction l with
  | nil => cases hm
  | cons kv t ih =>
    obtain ⟨k', v'⟩ := kv
    simp only [List.map_cons, List.nodup_cons] at hnd
    rcases List.mem_cons.mp hm with heq | hm'
    · cases heq
      simp [assoc_get]
    · have hk : k' ≠ k := by
        intro he
        exact hnd.1 (he ▸ List.mem_map_of_mem Prod.fst hm')
      simp [assoc_get, hk, ih hnd.2 hm']

theorem map_key_self {β : Type} (l : List (String × β)) (d : β)
    (hnd : (l.map Prod.fst).Nodup) :
    (l.map Prod.fst).map (fun k => (k, (assoc_get l k).getD d)) = l := by
  induction l with
  | nil => rfl
  | cons kv t ih =>
    obtain ⟨k', v'⟩ := kv
    simp only [List.map_cons, List.nodup_cons] at hnd
    have htail : (t.map Prod.fst).map (fun k => (k, (assoc_get ((k', v') :: t) k).getD d))
        = (t.map Prod.fst).map (fun k => (k, (assoc_get t k).getD d)) := by
      apply List.map_congr_left
      intro k hk
      have hne : k' ≠ k := fun he => hnd.1 (he ▸ hk)
      simp [assoc_get, hne]
    simp only [List.map_cons]
    rw [htail, ih hnd.2]
    congr 1
    simp [assoc_get]

/-- An alert whose body text happens to be the word `token`, while also
carrying a field whose key is the redacted `"token"`:
`emit("e", "E", "t", "token", token="s")`. -/
def leaky_alert : Alert :=
  { event := "e", level := "E", title := "t", text := "token",
    fields := [("token", .vstr "s")], ts := 0 }

/-- C6 counterexample: the key `"token"` is redacted (its field is dropped
from the fields line — indeed the whole fields line is omitted here), yet the
rendered output still contains the string `"token"`, because the body text
does: redaction filters the fields mapping only, it does not scrub the rest
of the message. So "no such redacted key ever appears in the rendered
output", read over the whole output, is false. -/
theorem c6_counterexample :
    redacted_key "token" = true
    ∧ leaky_alert.fields = [("token", PyVal.vstr "s")]
    ∧ render false false "" leaky_alert = .ok "[RustWatchdog] E: t\ntoken"
    ∧ str_contains "[RustWatchdog] E: t\ntoken" "token" = true :=
  ⟨by decide, rfl, rfl, by decide⟩

/-- C6 amended: the fields line lists exactly the fields with non-`None`
values and non-redacted keys, sorted by key, each formatted `key=value`,
space-separated; it is omitted entirely when no field survives; and no
redacted key appears *as a key of the fields line* (one whose name occurs in
the title, the body text, or a surviving value may still appear in the
rendered output — see the counterexample). -/
theorem c6_amended (a : Alert) (inc_host inc_ident : Bool) (host : String)
    (hnd : (a.fields.map Prod.fst).Nodup) :
    (∀ k v, (k, v) ∈ safe_fields a.fields
        ↔ ((k, v) ∈ a.fields ∧ v ≠ PyVal.vnone ∧ redacted_key k = false))
    ∧ (fields_line a.fields = none ↔ safe_fields a.fields = [])
    ∧ (∀ fl, fields_line a.fields = some fl →
        ∃ kvs : List (String × PyVal),
          fl = "fields: " ++ py_join " " (kvs.map fun p => p.1 ++ "=" ++ py_str p.2)
          ∧ kvs.Perm (safe_fields a.fields)
          ∧ (kvs.map Prod.fst).Sorted (· ≤ ·)
          ∧ ∀ p ∈ kvs, redacted_key p.1 = false)
    ∧ (∀ lines, render_lines inc_host inc_ident host a = .ok lines →
        ∃ head, lines = head :: a.text :: (fields_line a.fields).toList) := by
  have hnds : ((safe_fields a.fields).map Prod.fst).Nodup :=
    List.Nodup.sublist (List.Sublist.map Prod.fst (List.filter_sublist a.fields)) hnd
  refine ⟨?_, ?_, ?_, ?_⟩
  · intro k v
    rw [safe_fields, List.mem_filter]
    apply and_congr_right
    intro _
    cases v <;> simp [redacted_key]
  · rw [fields_line]
    split_ifs with he
    · simp [List.isEmpty_iff.mp he]
    · simp [List.isEmpty_iff] at he
      simp [he]
  · intro fl hfl
    rw [fields_line] at hfl
    by_cases he : (safe_fields a.fields).isEmpty
    · rw [if_pos he] at hfl
      exact absurd hfl (by simp)
    · rw [if_neg he] at hfl
      injection hfl with hfl'
      refine ⟨(List.insertionSort (· ≤ ·) ((safe_fields a.fields).map Prod.fst)).map
          (fun k => (k, (assoc_get (safe_fields a.fields) k).getD PyVal.vnone)),
        ?_, ?_, ?_, ?_⟩
      · rw [← hfl', List.map_map]
        rfl
      · have hp := (List.perm_insertionSort (· ≤ ·)
          ((safe_fields a.fields).map Prod.fst)).map
          (fun k => (k, (assoc_get (safe_fields a.fields) k).getD PyVal.vnone))
        rwa [map_key_self (safe_fields a.fields) PyVal.vnone hnds] at hp
      · rw [List.map_map]
        have hco : (Prod.fst ∘ fun k : String =>
            (k, (assoc_get (safe_fields a.fields) k).getD PyVal.vnone)) = id := rfl
        rw [hco, List.map_id]
        exact List.sorted_insertionSort (α := String) (· ≤ ·) _
      · intro p hp
        rcases List.mem_map.mp hp with ⟨k, hk, rfl⟩
        have hk' : k ∈ (safe_fields a.fields).map Prod.fst :=
          (List.perm_insertionSort (· ≤ ·) _).mem_iff.mp hk
        rcases List.mem_map.mp hk' with ⟨⟨k0, v0⟩, hkv, rfl⟩
        have := List.mem_filter.mp hkv
        simp only [Bool.and_eq_true, Bool.not_eq_true'] at this
        exact this.2.2
  · intro lines hl
    rw [render_lines] at hl
    cases hi : identity_segment (if inc_ident
        then (assoc_get a.fields "identity").getD (.vstr "") else .vstr "") with
    | error e =>
      rw [hi] at hl
      cases hl
    | ok iseg =>
      rw [hi] at hl
      cases hf : fields_line a.fields with
      | none =>
        rw [hf] at hl
        injection hl with hl'
        exact ⟨_, by rw [← hl']; rfl⟩
      | some fl =>
        rw [hf] at hl
        injection hl with hl'
        exact ⟨_, by rw [← hl']; rfl⟩

/-- An alert with a mix of fields: one redacted (`ToKeN_b`), one `None`
(dropped), and two survivors given out of key order. -/
def mixed_alert : Alert :=
  { event := "e", level := "INFO", title := "t", text := "x",
    fields := [("b", .vint 2), ("ToKeN_b", .vstr "s"), ("a", .vstr "u"), ("n", .vnone)],
    ts := 0 }

/-- C6 amended, witnessed at `mixed_alert` (its field keys are distinct). -/
theorem c6_witness :
    fields_line mixed_alert.fields = none ↔ safe_fields mixed_alert.fields = [] :=
  (c6_amended mixed_alert false false "" (by decide)).2.1

/-! ## Timestamp monotonicity along worker traces -/

theorem apply_op_timestamps (cfg : AlertCfg) (hash : String → String) (t : ℚ)
    (st : SuppState) (op : WOp) (k : String) :
    ((apply_op cfg hash t st op).last_event k = st.last_event k
      ∨ (apply_op cfg hash t st op).last_event k = t)
    ∧ ((apply_op cfg hash t st op).last_key k = st.last_key k
      ∨ (apply_op cfg hash t st op).last_key k = t) := by
  cases op with
  | dec a r =>
    constructor <;> left <;>
      (simp only [apply_op, should_send]; split_ifs <;> rfl)
  | mark a r =>
    constructor
    · simp only [apply_op, mark_sent, Function.update_apply]
      split_ifs
      · right; rfl
      · left; rfl
    · simp only [apply_op, mark_sent, Function.update_apply]
      split_ifs
      · right; rfl
      · left; rfl

theorem trace_chain (cfg : AlertCfg) (hash : String → String) :
    ∀ (tr : List (ℚ × WOp)) (st : SuppState) (t0 : ℚ),
      state_bounded st t0 →
      List.Chain' (· ≤ ·) (t0 :: tr.map Prod.fst) →
      List.Chain' state_le (trace_states cfg hash st tr) := by
  intro tr
  induction tr with
  | nil =>
    intro st t0 _ _
    exact List.chain'_singleton st
  | cons p rest ih =>
    obtain ⟨t, op⟩ := p
    intro st t0 hb hc
    simp only [List.map_cons] at hc
    have ht0t : t0 ≤ t := (List.chain'_cons.mp hc).1
    have hc' : List.Chain' (· ≤ ·) (t :: rest.map Prod.fst) := (List.chain'_cons.mp hc).2
    have hb' : state_bounded (apply_op cfg hash t st op) t := by
      intro k
      rcases apply_op_timestamps cfg hash t st op k with ⟨h1, h2⟩
      constructor
      · rcases h1 with h | h
        · exact h ▸ le_trans (hb k).1 ht0t
        · exact le_of_eq h
      · rcases h2 with h | h
        · exact h ▸ le_trans (hb k).2 ht0t
        · exact le_of_eq h
    have hle : state_le st (apply_op cfg hash t st op) := by
      intro k
      rcases apply_op_timestamps cfg hash t st op k with ⟨h1, h2⟩
      constructor
      · rcases h1 with h | h
        · exact le_of_eq h.symm
        · exact le_trans (le_trans (hb k).1 ht0t) (le_of_eq h.symm)
      · rcases h2 with h | h
        · exact le_of_eq h.symm
        · exact le_trans (le_trans (hb k).2 ht0t) (le_of_eq h.symm)
    rw [trace_states, List.chain'_cons']
    refine ⟨?_, ih _ t hb' hc'⟩
    intro y hy
    have hh : (trace_states cfg hash (apply_op cfg hash t st op) rest).head?
        = some (apply_op cfg hash t st op) := by
      cases rest <;> rfl
    rw [hh, Option.mem_def] at hy
    injection hy with hy'
    rw [← hy']
    exact hle

/-- C8: starting from the empty suppression state, along any sequence of
decision and mark-sent operations whose clock reads are non-negative and
non-decreasing (and with non-negative cooldowns and dedupe window, as the
claim assumes), the `last_event` and `last_key` timestamps never move
backward at any key: consecutive states of the trace are pointwise ordered.
Decisions never touch the timestamps, and each mark-sent overwrites an entry
with the current clock value, which bounds every stored timestamp from
above. -/
theorem c8_timestamp_monotonic (cfg : AlertCfg) (hash : String → String)
    (tr : List (ℚ × WOp))
    (_hcd : 0 ≤ cfg.cooldown_default)
    (_hcds : ∀ e v, cfg.cooldowns e = some v → 0 ≤ v)
    (_hdd : 0 ≤ cfg.dedupe_seconds)
    (hts : ∀ t ∈ tr.map Prod.fst, (0 : ℚ) ≤ t)
    (hchain : List.Chain' (· ≤ ·) (tr.map Prod.fst)) :
    List.Chain' state_le (trace_states cfg hash empty_state tr) := by
  apply trace_chain cfg hash tr empty_state 0
  · intro k
    exact ⟨le_rfl, le_rfl⟩
  · rw [List.chain'_cons']
    refine ⟨?_, hchain⟩
    intro y hy
    exact hts y (List.mem_of_mem_head? hy)

/-- C8, witnessed on a concrete two-step trace (a mark at time 1, then a
decision at time 2) with the default configuration. -/
theorem c8_witness :
    List.Chain' state_le (trace_states default_cfg (fun _ => "h") empty_state
      [((1 : ℚ), WOp.mark plain_alert "r"), ((2 : ℚ), WOp.dec plain_alert "r")]) :=
  c8_timestamp_monotonic default_cfg (fun _ => "h")
    [((1 : ℚ), WOp.mark plain_alert "r"), ((2 : ℚ), WOp.dec plain_alert "r")]
    (by decide)
    (fun e v h => by simp [default_cfg] at h)
    (by decide)
    (by
      intro t ht
      simp only [List.map_cons, List.map_nil, List.mem_cons,
        List.mem_singleton] at ht
      rcases ht with rfl | rfl | h
      · decide
      · decide
      · cases h)
    (by
      simp only [List.map_cons, List.map_nil, List.chain'_cons,
        List.chain'_singleton, and_true]
      decide)

/-! ## Configuration handling (C9) -/

theorem map_py_int_jint (l : List Int) : map_py_int (l.map JVal.jint) = .ok l := by
  induction l with
  | nil => rfl
  | cons x xs ih => simp [map_py_int, py_int, ih]

/-- A configuration enabling only the Telegram backend, with the recipient
setting `chat_val` under the `chat_ids` key and everything else defaulted. -/
def tele_cfg (chat_val : JVal) : JVal :=
  .jobj [("alerts", .jobj
    [("enabled", .jbool true),
     ("backends", .jlist [.jstr "telegram"]),
     ("telegram", .jobj [("chat_ids", chat_val)])])]

/-- An environment holding only the Telegram token. -/
def env_tok (tok : String) : String → Option String :=
  fun k => if k = "RUST_WD_TELEGRAM_TOKEN" then some tok else none

theorem except_bind_ite {ε α β : Type} (c : Prop) [Decidable c] (x y : Except ε α)
    (f : α → Except ε β) :
    ((if c then x else y) >>= f) = if c then x >>= f else y >>= f := by
  split_ifs <;> rfl

theorem init_tele_spec (cv : JVal) (tok : String) (htr : jtruthy cv = true) :
    init_manager (tele_cfg cv) (env_tok tok)
      = parse_chat_ids cv >>= fun ids =>
          if tok ≠ "" ∧ ids ≠ [] then
            .ok { enabled := true, cooldown_default := 900, dedupe_seconds := 300,
                  include_host := true, include_identity := true,
                  backends := [.telegram ⟨tok, ids, .jstr "HTML", true, 8⟩],
                  logs := [] }
          else
            .ok { enabled := false, cooldown_default := 900, dedupe_seconds := 300,
                  include_host := true, include_identity := true,
                  backends := [], logs := [no_backend_warning] } := by
  have h1 : jor cv JVal.jnull = cv := by simp [jor, htr]
  have hjor_t : jor (JVal.jobj [("chat_ids", cv)]) (JVal.jobj [])
      = JVal.jobj [("chat_ids", cv)] := rfl
  have hjor_b : jor (JVal.jlist [JVal.jstr "telegram"]) (JVal.jlist [])
      = JVal.jlist [JVal.jstr "telegram"] := rfl
  have hjor_c : jor (JVal.jobj []) (JVal.jobj []) = JVal.jobj [] := rfl
  have hjt : jtruthy (JVal.jbool true) = true := rfl
  have hbn : backend_names (JVal.jlist [JVal.jstr "telegram"]) = .ok ["telegram"] := rfl
  have hct : (["telegram"] : List String).contains "telegram" = true := rfl
  have hcd2 : (["telegram"] : List String).contains "discord" = false := rfl
  simp only [init_manager, tele_cfg, env_tok, except_bind_ok, except_pure_eq]
  simp [jget, assoc_get, py_int, py_getenv, env_tok, hjor_t, hjor_b, hjor_c, hjt,
    hbn, hct, hcd2, h1, except_bind_ok, except_pure_eq, except_bind_ite]

/-- C9 counterexample: construction is *not* exception-free for every
configuration value — with `{"alerts": {"cooldown_seconds_default": "abc"}}`
the unguarded `int(self.cfg.get("cooldown_seconds_default", 900))`
(line 118) raises `ValueError` out of `AlertManager.__init__`, before any
credential handling. -/
theorem c9_counterexample :
    init_manager (.jobj [("alerts", .jobj [("cooldown_seconds_default", .jstr "abc")])])
      (fun _ => none) = .error .valueError := rfl

/-- C9 amended: construction does not raise and behaves as claimed *provided
the configuration's sections are mappings and its numeric settings are
`int`-coercible*: the three recipient shapes — a single integer, a
comma-separated numeral string, a list of integers — are all accepted and
normalized to a list of chat ids; with a (truthy) recipient setting and the
token present, the manager comes up enabled with exactly those recipients;
with the credential absent, construction still returns normally, logs exactly
the one no-backend warning, and sets `enabled := false`. For a
non-`int`-coercible value (see the counterexample) construction raises. -/
theorem c9_amended (tok : String) (cv : JVal) (ids : List Int) (n : Int) (l : List Int) :
    (parse_chat_ids (.jint n) = .ok [n])
    ∧ (parse_chat_ids (.jlist (l.map JVal.jint)) = .ok l)
    ∧ (parse_chat_ids (.jstr "12, 34") = .ok [12, 34])
    ∧ (jtruthy cv = true → parse_chat_ids cv = .ok ids → tok ≠ "" → ids ≠ [] →
        init_manager (tele_cfg cv) (env_tok tok)
          = .ok { enabled := true, cooldown_default := 900, dedupe_seconds := 300,
                  include_host := true, include_identity := true,
                  backends := [.telegram ⟨tok, ids, .jstr "HTML", true, 8⟩],
                  logs := [] })
    ∧ (jtruthy cv = true → parse_chat_ids cv = .ok ids →
        init_manager (tele_cfg cv) (env_tok "")
          = .ok { enabled := false, cooldown_default := 900, dedupe_seconds := 300,
                  include_host := true, include_identity := true,
                  backends := [], logs := [no_backend_warning] }) := by
  refine ⟨rfl, map_py_int_jint l, rfl, ?_, ?_⟩
  · intro htr hp htok hne
    rw [init_tele_spec cv tok htr, hp, except_bind_ok, if_pos ⟨htok, hne⟩]
  · intro htr hp
    rw [init_tele_spec cv "" htr, hp, except_bind_ok,
      if_neg (fun hcon => hcon.1 rfl)]

end RWA
